import Mathlib

/-!
Verification of the shared browser-automation session manager
(`claudetool/browse/browse.go`) against its natural-language specification.

The Go code is shallowly embedded: the mutable `BrowseTools` struct becomes a
Lean structure passed and returned explicitly; external effects (the chromedp
protocol, the filesystem, the clock, the UUID generator) become explicit
oracle parameters; Go `nil`-able fields become `Option`; fallible operations
return `Except`.  Machine integers that matter (durations in nanoseconds) are
modelled as `Nat`/`Int` with the explicit 2^63 bounds that Go's
`time.ParseDuration` enforces.
-/

deriving instance DecidableEq for Except

namespace Browse

/-! ## Console log ring (`captureConsoleLog`, browse.go lines 639-649) -/

/-- Console events (`*runtime.EventConsoleAPICalled`) are opaque payloads to
the manager; we model them by an arbitrary decidable token. -/
abbrev ConsoleEvent := Nat

/-- `b.maxConsoleLogs` is set to 100 by `NewBrowseTools`. -/
def defaultMaxConsoleLogs : Nat := 100

/-- Embedding of `captureConsoleLog` (browse.go, lines 639-649) acting on the
stored log slice: append the event, and if the length now exceeds
`maxLogs`, reslice to the last `maxLogs` entries
(`b.consoleLogs = b.consoleLogs[len(b.consoleLogs)-b.maxConsoleLogs:]`).
The Go method mutates `b.consoleLogs`; here the slice is passed explicitly. -/
def captureConsoleLog (maxLogs : Nat) (logs : List ConsoleEvent) (e : ConsoleEvent) :
    List ConsoleEvent :=
  if (logs ++ [e]).length > maxLogs then
    (logs ++ [e]).drop ((logs ++ [e]).length - maxLogs)
  else
    logs ++ [e]

/-- The last `n` elements of a list (all of it when it is shorter than `n`). -/
def rtake (n : Nat) (l : List α) : List α := l.drop (l.length - n)

/-! ## Session manager state (`BrowseTools`, browse.go lines 32-176) -/

/-- Embedding of the `BrowseTools` struct.  Go `nil`-able context/cancel/timer
fields become `Option Unit` (a handle is either absent or present; chromedp
handle identity plays no role in the claims); the screenshot map becomes an
association list; durations are nanosecond `Int`s as in Go. -/
structure BrowseTools where
  allocCtx : Option Unit
  allocCancel : Option Unit
  browserCtx : Option Unit
  browserCtxCancel : Option Unit
  idleTimer : Option Unit
  screenshots : List (String × Nat)
  consoleLogs : List ConsoleEvent
  maxConsoleLogs : Nat
  idleTimeout : Int
  maxImageDimension : Int
deriving DecidableEq

/-- `DefaultIdleTimeout = 30 * time.Minute` in nanoseconds. -/
def DefaultIdleTimeout : Int := 1800000000000

/-- Embedding of `NewBrowseTools` (lines 56-72): non-positive idle timeout
falls back to the default; all session fields start nil, the registries start
empty, and `maxConsoleLogs` is 100.  (The best-effort `os.MkdirAll` of the
screenshot directory is an external effect with no state in the model.) -/
def NewBrowseTools (idleTimeout : Int) (maxImageDimension : Int) : BrowseTools :=
  { allocCtx := none
    allocCancel := none
    browserCtx := none
    browserCtxCancel := none
    idleTimer := none
    screenshots := []
    consoleLogs := []
    maxConsoleLogs := defaultMaxConsoleLogs
    idleTimeout := if idleTimeout ≤ 0 then DefaultIdleTimeout else idleTimeout
    maxImageDimension := maxImageDimension }

/-- Embedding of `resetIdleTimerLocked` (lines 130-135): stop any pending
timer and install a fresh one. -/
def resetIdleTimerLocked (b : BrowseTools) : BrowseTools :=
  { b with idleTimer := some () }

/-- Outcome oracle for the two fallible startup steps inside
`GetBrowserContext`: `chromedp.Run(browserCtx)` (start the browser) and
`chromedp.Run(browserCtx, chromedp.EmulateViewport(1280, 720))`. -/
inductive StartupEnv where
  | startFails
  | viewportFails
  | ok
deriving DecidableEq

/-- Result of one `GetBrowserContext` call: the returned value (browser
context or error), the post-state, and which cancel functions of the partial
startup attempt were invoked on the failure path. -/
structure AcquireOut where
  result : Except String Unit
  state : BrowseTools
  allocCancelInvoked : Bool
  browserCancelInvoked : Bool
deriving DecidableEq

/-- Embedding of `GetBrowserContext` (lines 75-127).  If a browser context
already exists, reset the idle timer and return it.  Otherwise allocate the
exec allocator and browser context, then run the two fallible steps:
on start failure only `allocCancel()` is called and the error is returned
with the struct fields untouched; on viewport failure `browserCancel()` then
`allocCancel()` are called; on success all four fields are assigned and the
idle timer is reset. -/
def GetBrowserContext (env : StartupEnv) (b : BrowseTools) : AcquireOut :=
  if b.browserCtx.isSome then
    { result := .ok ()
      state := resetIdleTimerLocked b
      allocCancelInvoked := false
      browserCancelInvoked := false }
  else
    match env with
    | .startFails =>
      { result := .error "failed to start browser (please apt get chromium or equivalent)"
        state := b
        allocCancelInvoked := true
        browserCancelInvoked := false }
    | .viewportFails =>
      { result := .error "failed to set default viewport"
        state := b
        allocCancelInvoked := true
        browserCancelInvoked := true }
    | .ok =>
      let b1 := { b with
        allocCtx := some ()
        allocCancel := some ()
        browserCtx := some ()
        browserCtxCancel := some () }
      { result := .ok ()
        state := resetIdleTimerLocked b1
        allocCancelInvoked := false
        browserCancelInvoked := false }

/-- Embedding of `closeBrowserLocked` (lines 151-169): stop and drop the idle
timer, invoke the cancel functions when present, and nil out all four session
fields. -/
def closeBrowserLocked (b : BrowseTools) : BrowseTools :=
  { b with
    idleTimer := none
    browserCtxCancel := none
    allocCancel := none
    browserCtx := none
    allocCtx := none }

/-- Embedding of `Close` (lines 172-176). -/
def Close (b : BrowseTools) : BrowseTools :=
  closeBrowserLocked b

/-- Embedding of `idleShutdown` (lines 138-148): a no-op when no browser is
live, otherwise `closeBrowserLocked`. -/
def idleShutdown (b : BrowseTools) : BrowseTools :=
  if b.browserCtx.isSome then closeBrowserLocked b else b

/-- All four session fields are set. -/
def sessionAllSet (b : BrowseTools) : Prop :=
  b.allocCtx = some () ∧ b.allocCancel = some () ∧
    b.browserCtx = some () ∧ b.browserCtxCancel = some ()

/-- All four session fields are absent. -/
def sessionAllAbsent (b : BrowseTools) : Prop :=
  b.allocCtx = none ∧ b.allocCancel = none ∧
    b.browserCtx = none ∧ b.browserCtxCancel = none

/-- The at-most-one-Session invariant: the session fields are either all
absent or all set; no partially-constructed state. -/
def sessionConsistent (b : BrowseTools) : Prop :=
  sessionAllAbsent b ∨ sessionAllSet b

instance (b : BrowseTools) : Decidable (sessionAllSet b) := by
  unfold sessionAllSet
  infer_instance

instance (b : BrowseTools) : Decidable (sessionAllAbsent b) := by
  unfold sessionAllAbsent
  infer_instance

instance (b : BrowseTools) : Decidable (sessionConsistent b) := by
  unfold sessionConsistent
  infer_instance

/-- States reachable from a freshly constructed manager by any sequence of
`GetBrowserContext` (under any environment outcome), `Close`, and
`idleShutdown` calls. -/
inductive Reachable : BrowseTools → Prop where
  | init (idleTimeout maxImageDimension : Int) :
      Reachable (NewBrowseTools idleTimeout maxImageDimension)
  | get (env : StartupEnv) {b : BrowseTools} :
      Reachable b → Reachable (GetBrowserContext env b).state
  | close {b : BrowseTools} : Reachable b → Reachable (Close b)
  | idle {b : BrowseTools} : Reachable b → Reachable (idleShutdown b)

/-! ## Go `time.ParseDuration` and `parseTimeout` (lines 628-636)

`parseTimeout` delegates to Go's `time.ParseDuration`, which is standard
library code; it is modelled here following its documented grammar and
integer bounds.  The fractional-digit contribution, which Go computes with
`float64` arithmetic (`uint64(float64(f) * (float64(unit) / scale))`), is
modelled with exact natural-number arithmetic `f * unit / scale`; both
truncate toward zero. -/

/-- Go `leadingInt`: consume leading decimal digits, failing on overflow past
`1<<63` (with the pre-multiplication guard `x > 1<<63/10`). -/
def leadingIntAux : List Char → Nat → Option (Nat × List Char)
  | [], x => some (x, [])
  | c :: rest, x =>
    if c.toNat < 48 || c.toNat > 57 then some (x, c :: rest)
    else if x > 922337203685477580 then none
    else
      let x2 := x * 10 + (c.toNat - 48)
      if x2 > 9223372036854775808 then none
      else leadingIntAux rest x2

def leadingInt (s : List Char) : Option (Nat × List Char) := leadingIntAux s 0

/-- Go `leadingFraction`: consume digits after the decimal point, tracking a
power-of-ten scale and silently stopping accumulation on overflow. -/
def leadingFractionAux : List Char → Nat → Nat → Bool → Nat × Nat × List Char
  | [], x, scale, _ => (x, scale, [])
  | c :: rest, x, scale, overflow =>
    if c.toNat < 48 || c.toNat > 57 then (x, scale, c :: rest)
    else if overflow then leadingFractionAux rest x scale true
    else if x > 922337203685477580 then leadingFractionAux rest x scale true
    else
      let y := x * 10 + (c.toNat - 48)
      if y > 9223372036854775808 then leadingFractionAux rest x scale true
      else leadingFractionAux rest y (scale * 10) false

def leadingFraction (s : List Char) : Nat × Nat × List Char :=
  leadingFractionAux s 0 1 false

/-- Go `unitMap`: nanoseconds per unit suffix. -/
def unitMap (u : String) : Option Nat :=
  if u == "ns" then some 1
  else if u == "us" || u == "µs" || u == "μs" then some 1000
  else if u == "ms" then some 1000000
  else if u == "s" then some 1000000000
  else if u == "m" then some 60000000000
  else if u == "h" then some 3600000000000
  else if u == "d" then none
  else none

/-- The main loop of Go `time.ParseDuration`: repeatedly consume
`[0-9]*(\.[0-9]*)?<unit>`, accumulating nanoseconds in `d` with the `1<<63`
overflow guards; fueled recursion (each iteration consumes at least one
character, so `length + 1` fuel suffices). -/
def durLoop : Nat → List Char → Nat → Option Nat
  | _, [], d => some d
  | 0, _ :: _, _ => none
  | fuel + 1, c :: cs, d =>
    if !(c == '.' || (48 ≤ c.toNat && c.toNat ≤ 57)) then none
    else
      match leadingInt (c :: cs) with
      | none => none
      | some (v, s1) =>
        let pre : Bool := s1.length != (c :: cs).length
        match
          (match s1 with
           | '.' :: rest =>
             match leadingFraction rest with
             | (f, scale, s2) => (f, scale, s2, decide (s2.length ≠ rest.length))
           | _ => (0, 1, s1, false) : Nat × Nat × List Char × Bool) with
        | (f, scale, s2, post) =>
          if !pre && !post then none
          else
            let ustr := s2.takeWhile fun ch => !(ch == '.' || (48 ≤ ch.toNat && ch.toNat ≤ 57))
            if ustr.length == 0 then none
            else
              match unitMap (String.mk ustr) with
              | none => none
              | some unit =>
                if v > 9223372036854775808 / unit then none
                else
                  let v1 := v * unit
                  let v2 := if f > 0 then v1 + f * unit / scale else v1
                  if f > 0 && decide (v2 > 9223372036854775808) then none
                  else
                    let d2 := d + v2
                    if d2 > 9223372036854775808 then none
                    else durLoop fuel (s2.drop ustr.length) d2

/-- Model of Go `time.ParseDuration` (nanoseconds; `none` is a parse error):
optional sign, the special case `"0"`, empty-string error, then the
number/unit loop, with the final `1<<63 - 1` bound on positive results. -/
def parseGoDuration (s : String) : Option Int :=
  match
    (match s.data with
     | '-' :: r => (true, r)
     | '+' :: r => (false, r)
     | cs => (false, cs) : Bool × List Char) with
  | (neg, rest) =>
    if rest == ['0'] then some 0
    else if rest.isEmpty then none
    else
      match durLoop (rest.length + 1) rest 0 with
      | none => none
      | some d =>
        if neg then some (-(d : Int))
        else if d > 9223372036854775807 then none
        else some (d : Int)

/-- Embedding of `parseTimeout` (lines 628-636): parse the timeout string,
returning 15 seconds (in nanoseconds) when parsing fails. -/
def parseTimeout (timeout : String) : Int :=
  match parseGoDuration timeout with
  | none => 15000000000
  | some dur => dur

/-! ## URL port check (`isPort80`, lines 184-192)

`isPort80` delegates to Go's `net/url.Parse` and `URL.Port()`, standard
library code modelled here: control characters are rejected, a scheme is an
alphabetic-initial run before `:`, the authority follows `//` up to the next
`/`, `?` or `#`, userinfo precedes the last `@`, and the port is the suffix
after the last `:` of the host (after `]` for bracketed hosts), which must be
all digits or the parse fails with an invalid-port error. -/

def isAlphaB (c : Char) : Bool :=
  (97 ≤ c.toNat && c.toNat ≤ 122) || (65 ≤ c.toNat && c.toNat ≤ 90)

def isDigitB (c : Char) : Bool := 48 ≤ c.toNat && c.toNat ≤ 57

def isSchemeCharB (c : Char) : Bool :=
  isAlphaB c || isDigitB c || c == '+' || c == '-' || c == '.'

/-- Go `getScheme`: `none` is the "missing protocol scheme" error; otherwise
returns the lowercased scheme (possibly `""`) and the remainder. -/
def getScheme (cs : List Char) : Option (String × List Char) :=
  match cs with
  | [] => some ("", [])
  | c :: _ =>
    if c == ':' then none
    else if !isAlphaB c then some ("", cs)
    else
      let pre := cs.takeWhile isSchemeCharB
      match cs.drop pre.length with
      | ':' :: rest => some (String.mk (pre.map Char.toLower), rest)
      | _ => some ("", cs)

/-- The characters strictly after the last occurrence of `c` (the whole list
when `c` does not occur). -/
def afterLast (c : Char) (l : List Char) : List Char :=
  (l.reverse.takeWhile fun x => x != c).reverse

/-- Port extraction and validation for a host, per Go `parseHost` /
`splitHostPort`: `none` is the "invalid port" parse error. -/
def parsePort (host : List Char) : Option String :=
  match host with
  | '[' :: _ =>
    if host.contains ']' then
      match afterLast ']' host with
      | [] => some ""
      | ':' :: p => if p.all isDigitB then some (String.mk p) else none
      | _ => none
    else none
  | _ =>
    if host.contains ':' then
      let p := afterLast ':' host
      if p.all isDigitB then some (String.mk p) else none
    else some ""

/-- The two components of a parsed URL that `isPort80` consults. -/
structure GoURL where
  scheme : String
  port : String
deriving DecidableEq

/-- Model of Go `net/url.Parse` restricted to the scheme and port components
(`none` is a parse error): control bytes, a missing scheme before `:`, and an
invalid port are errors; URLs without a `//` authority have an empty port. -/
def urlParse (s : String) : Option GoURL :=
  let cs := s.data
  if cs.any (fun c => c.toNat < 32 || c.toNat == 127) then none
  else
    match getScheme cs with
    | none => none
    | some (scheme, rest) =>
      match rest with
      | '/' :: '/' :: rest2 =>
        let authority := rest2.takeWhile fun c => c != '/' && c != '?' && c != '#'
        let host := if authority.contains '@' then afterLast '@' authority else authority
        match parsePort host with
        | none => none
        | some port => some ⟨scheme, port⟩
      | _ => some ⟨scheme, ""⟩

/-- Embedding of `isPort80` (lines 184-192): parse failures report `false`;
otherwise the URL definitely uses port 80 when the explicit port is `"80"` or
the port is empty and the scheme is `http`. -/
def isPort80 (urlStr : String) : Bool :=
  match urlParse urlStr with
  | none => false
  | some parsedURL =>
    parsedURL.port == "80" || (parsedURL.port == "" && parsedURL.scheme == "http")

/-! ## Tool dispatch operations -/

/-- Result of one tool run: the output envelope (error or success payload),
the post-state, and whether `GetBrowserContext` was called. -/
structure ToolRunOut where
  out : Except String String
  state : BrowseTools
  sessionAcquired : Bool
deriving DecidableEq

/-- Embedding of `navigateRun` (lines 217-245) on structured input (the JSON
unmarshalling step is outside the model): the port-80 check runs before any
session acquisition; then the session is acquired, a timeout sub-context is
derived via `parseTimeout`, and the navigation action either succeeds with
"done" or reports the protocol error (`navOk` is the outcome oracle for
`chromedp.Navigate` + `WaitReady`). -/
def navigateRun (env : StartupEnv) (navOk : Bool) (url timeoutStr : String)
    (b : BrowseTools) : ToolRunOut :=
  if isPort80 url then
    { out := .error "port 80 is not the port you're looking for--port 80 is the main sketch server"
      state := b
      sessionAcquired := false }
  else
    let r := GetBrowserContext env b
    match r.result with
    | .error e => { out := .error e, state := r.state, sessionAcquired := true }
    | .ok _ =>
      let _timeoutNs := parseTimeout timeoutStr
      if navOk then { out := .ok "done", state := r.state, sessionAcquired := true }
      else { out := .error "navigation failed", state := r.state, sessionAcquired := true }

/-- The log-selection core of `recentConsoleLogsRun` (lines 686-700): default
the limit to 100 when the input limit is not positive, start at
`storedCount - limit` when the store exceeds the limit, and copy the suffix. -/
def recentConsoleLogsSelect (logs : List ConsoleEvent) (inputLimit : Int) :
    List ConsoleEvent :=
  let limit : Nat := if 0 < inputLimit then inputLimit.toNat else 100
  let start : Nat := if logs.length > limit then logs.length - limit else 0
  logs.drop start

/-- Embedding of `recentConsoleLogsRun` (lines 674-720): ensure the browser
is initialized (propagating startup errors), then snapshot the most recent
logs under the log mutex.  The success payload is abstracted to the list of
returned events. -/
def recentConsoleLogsRun (env : StartupEnv) (inputLimit : Int) (b : BrowseTools) :
    Except String (List ConsoleEvent) × BrowseTools :=
  let r := GetBrowserContext env b
  match r.result with
  | .error e => (.error e, r.state)
  | .ok _ => (.ok (recentConsoleLogsSelect r.state.consoleLogs inputLimit), r.state)

/-- Embedding of `clearConsoleLogsRun` (lines 735-754): ensure the browser is
initialized (propagating startup errors), read the stored count, replace the
store with a fresh empty slice, and report the count. -/
def clearConsoleLogsRun (env : StartupEnv) (b : BrowseTools) :
    Except String String × BrowseTools :=
  let r := GetBrowserContext env b
  match r.result with
  | .error e => (.error e, r.state)
  | .ok _ =>
    let logCount := r.state.consoleLogs.length
    (.ok ("Cleared " ++ toString logCount ++ " console log entries."),
      { r.state with consoleLogs := [] })

/-! ## Screenshot registry (`SaveScreenshot`, lines 520-543) -/

/-- `ScreenshotDir` constant (line 26). -/
def ScreenshotDir : String := "/tmp/shelley-screenshots"

def hexChar (n : Nat) : Char :=
  if n < 10 then Char.ofNat (48 + n) else Char.ofNat (87 + n)

/-- `n` rendered as exactly `k` lowercase hex digits (most significant
first). -/
def hexPad (n k : Nat) : List Char :=
  (List.range k).map fun i => hexChar (n / 16 ^ (k - 1 - i) % 16)

/-- The canonical 8-4-4-4-12 rendering of a 128-bit UUID value, modelling
`uuid.New().String()`; the generated random value is the `u` oracle. -/
def uuidToString (u : Nat) : String :=
  let x := u % 2 ^ 128
  String.mk (hexPad (x / 2 ^ 96) 8 ++ ['-'] ++ hexPad (x / 2 ^ 80 % 2 ^ 16) 4 ++ ['-'] ++
    hexPad (x / 2 ^ 64 % 2 ^ 16) 4 ++ ['-'] ++ hexPad (x / 2 ^ 48 % 2 ^ 16) 4 ++ ['-'] ++
    hexPad (x % 2 ^ 48) 12)

/-- Embedding of `GetScreenshotPath` (lines 541-543). -/
def GetScreenshotPath (id : String) : String :=
  ScreenshotDir ++ "/" ++ id ++ ".png"

/-- Lookup in the screenshot registry (Go map indexing). -/
def mapLookup (m : List (String × Nat)) (k : String) : Option Nat :=
  match m.find? fun p => p.1 == k with
  | some p => some p.2
  | none => none

/-- Embedding of `SaveScreenshot` (lines 521-538): generate the identifier,
write the file (`writeOk` is the I/O oracle; on failure return `""` without
touching the registry), then record the identifier with the current time
(`now` oracle) under the registry mutex and return it.  Go map assignment is
modelled by prepending the binding (newest binding wins on lookup). -/
def SaveScreenshot (writeOk : Bool) (u : Nat) (now : Nat) (b : BrowseTools) :
    String × BrowseTools :=
  let id := uuidToString u
  if writeOk then
    (id, { b with screenshots := (id, now) :: b.screenshots })
  else
    ("", b)

/-- Embedding of `screenshotRun` (lines 416-499): acquire the session,
capture (oracle `captureOk`), save via `SaveScreenshot` — an empty identifier
becomes the "failed to save screenshot" tool error — then normalize the image
when `maxImageDimension > 0` (oracle `resizeOk`).  The success payload is
abstracted to the saved screenshot path. -/
def screenshotRun (env : StartupEnv) (captureOk writeOk resizeOk : Bool)
    (u now : Nat) (b : BrowseTools) : Except String String × BrowseTools :=
  let r := GetBrowserContext env b
  match r.result with
  | .error e => (.error e, r.state)
  | .ok _ =>
    if !captureOk then (.error "screenshot capture failed", r.state)
    else
      match SaveScreenshot writeOk u now r.state with
      | (id, b2) =>
        if id == "" then (.error "failed to save screenshot", b2)
        else if b2.maxImageDimension > 0 && !resizeOk then
          (.error "failed to resize screenshot", b2)
        else
          (.ok (GetScreenshotPath id), b2)

/-! ## Theorems -/

theorem rtake_length_le (n : Nat) (l : List α) : (rtake n l).length ≤ n := by
  simp only [rtake, List.length_drop]
  omega

theorem capture_eq_rtake (m : Nat) (logs : List ConsoleEvent) (e : ConsoleEvent) :
    captureConsoleLog m logs e = rtake m (logs ++ [e]) := by
  unfold captureConsoleLog rtake
  split
  · rfl
  · next h =>
    have h0 : (logs ++ [e]).length - m = 0 := by omega
    rw [h0, List.drop_zero]

theorem rtake_append_rtake (n : Nat) (l m : List α) :
    rtake n (rtake n l ++ m) = rtake n (l ++ m) := by
  unfold rtake
  simp only [List.drop_append_eq_append_drop, List.drop_drop, List.length_append,
    List.length_drop]
  congr 1
  · congr 1
    omega
  · congr 1
    omega

theorem foldl_capture_eq_rtake (m : Nat) (evs : List ConsoleEvent) :
    List.foldl (captureConsoleLog m) [] evs = rtake m evs := by
  induction evs using List.reverseRecOn with
  | nil => simp [rtake]
  | append_singleton l e ih =>
    rw [List.foldl_append, List.foldl_cons, List.foldl_nil, ih, capture_eq_rtake,
      rtake_append_rtake]

/-- C3: the stored console-log sequence never exceeds the capacity of 100;
appending an event when the sequence is at capacity evicts exactly the oldest
event; and appending `100 + K` events starting from the empty store leaves
exactly the most recent 100 events in arrival order. -/
theorem c3_ring_buffer :
    (∀ evs : List ConsoleEvent,
      (List.foldl (captureConsoleLog defaultMaxConsoleLogs) [] evs).length ≤ 100) ∧
    (∀ (logs : List ConsoleEvent) (e : ConsoleEvent), logs.length = 100 →
      captureConsoleLog defaultMaxConsoleLogs logs e = logs.drop 1 ++ [e]) ∧
    (∀ evs : List ConsoleEvent, 100 ≤ evs.length →
      List.foldl (captureConsoleLog defaultMaxConsoleLogs) [] evs =
        evs.drop (evs.length - 100)) := by
  refine ⟨?_, ?_, ?_⟩
  · intro evs
    rw [foldl_capture_eq_rtake]
    exact rtake_length_le _ _
  · intro logs e hlen
    rw [capture_eq_rtake]
    unfold rtake
    have h1 : (logs ++ [e]).length - defaultMaxConsoleLogs = 1 := by
      simp [hlen, defaultMaxConsoleLogs]
    rw [h1, List.drop_append_eq_append_drop]
    have h2 : 1 - logs.length = 0 := by omega
    simp [h2]
  · intro evs _
    rw [foldl_capture_eq_rtake]
    rfl

theorem c3_ring_buffer_witness :
    captureConsoleLog defaultMaxConsoleLogs (List.range 100) 7 =
      (List.range 100).drop 1 ++ [7] ∧
    List.foldl (captureConsoleLog defaultMaxConsoleLogs) [] (List.range 101) =
      (List.range 101).drop ((List.range 101).length - 100) :=
  ⟨c3_ring_buffer.2.1 (List.range 100) 7 (by simp),
   c3_ring_buffer.2.2 (List.range 101) (by simp)⟩

/-- C1: at every state reachable by any sequence of `GetBrowserContext`,
`Close`, and `idleShutdown` calls, the session fields
(`allocCtx`/`allocCancel`/`browserCtx`/`browserCtxCancel`) are either all
absent or all set: no partially-constructed session state is observable. -/
theorem c1_session_all_or_none (b : BrowseTools) (h : Reachable b) :
    sessionConsistent b := by
  induction h with
  | init idleTimeout maxImageDimension =>
    left
    simp [NewBrowseTools, sessionAllAbsent]
  | get env h ih =>
    unfold GetBrowserContext
    split
    · rcases ih with hA | hS
      · rcases hA with ⟨h1, h2, h3, h4⟩
        left
        exact ⟨h1, h2, h3, h4⟩
      · rcases hS with ⟨h1, h2, h3, h4⟩
        right
        exact ⟨h1, h2, h3, h4⟩
    · cases env with
      | startFails => exact ih
      | viewportFails => exact ih
      | ok =>
        right
        simp [resetIdleTimerLocked, sessionAllSet]
  | close h ih =>
    left
    simp [Close, closeBrowserLocked, sessionAllAbsent]
  | idle h ih =>
    unfold idleShutdown
    split
    · left
      simp [closeBrowserLocked, sessionAllAbsent]
    · exact ih

theorem c1_session_all_or_none_witness :
    sessionConsistent (GetBrowserContext .ok (NewBrowseTools 0 0)).state :=
  c1_session_all_or_none _ (Reachable.get .ok (Reachable.init 0 0))

/-- C2 counterexample: when the browser-start step fails (`chromedp.Run`
returning an error at line 107), the call fails but the browser-context
cancel function of the partial attempt is NOT invoked — only the allocator
cancel is — refuting the claim that every failing startup step invokes both
cancel functions. -/
theorem c2_counterexample :
    (GetBrowserContext .startFails (NewBrowseTools 0 0)).result ≠ .ok () ∧
    (GetBrowserContext .startFails (NewBrowseTools 0 0)).allocCancelInvoked = true ∧
    (GetBrowserContext .startFails (NewBrowseTools 0 0)).browserCancelInvoked = false := by
  refine ⟨?_, by decide, by decide⟩
  decide

/-- C2 (amended): if any startup step inside `GetBrowserContext` fails, the
error is returned and the manager's session fields remain absent, so a
subsequent call attempts a fresh full startup; the allocator cancel function
of the partial attempt is always invoked, and the browser-context cancel
function is additionally invoked when the viewport step fails (on a
browser-start failure only the allocator cancel runs). -/
theorem c2_startup_rollback (b : BrowseTools) (h : sessionAllAbsent b) :
    ((GetBrowserContext .startFails b).result =
        .error "failed to start browser (please apt get chromium or equivalent)" ∧
      (GetBrowserContext .startFails b).allocCancelInvoked = true ∧
      (GetBrowserContext .startFails b).browserCancelInvoked = false ∧
      (GetBrowserContext .startFails b).state = b ∧
      sessionAllAbsent (GetBrowserContext .startFails b).state) ∧
    ((GetBrowserContext .viewportFails b).result = .error "failed to set default viewport" ∧
      (GetBrowserContext .viewportFails b).allocCancelInvoked = true ∧
      (GetBrowserContext .viewportFails b).browserCancelInvoked = true ∧
      (GetBrowserContext .viewportFails b).state = b ∧
      sessionAllAbsent (GetBrowserContext .viewportFails b).state) ∧
    ((GetBrowserContext .ok (GetBrowserContext .startFails b).state).result = .ok () ∧
      sessionAllSet (GetBrowserContext .ok (GetBrowserContext .startFails b).state).state) := by
  have hb : b.browserCtx.isSome = false := by
    rcases h with ⟨-, -, h3, -⟩
    simp [h3]
  refine ⟨⟨?_, ?_, ?_, ?_, ?_⟩, ⟨?_, ?_, ?_, ?_, ?_⟩, ?_, ?_⟩ <;>
    simp [GetBrowserContext, hb, resetIdleTimerLocked, sessionAllSet, h]

theorem c2_startup_rollback_witness :
    (GetBrowserContext .viewportFails (NewBrowseTools 0 0)).state = NewBrowseTools 0 0 ∧
    sessionAllSet
      (GetBrowserContext .ok
        (GetBrowserContext .startFails (NewBrowseTools 0 0)).state).state :=
  ⟨(c2_startup_rollback (NewBrowseTools 0 0) (by decide)).2.1.2.2.2.1,
   (c2_startup_rollback (NewBrowseTools 0 0) (by decide)).2.2.2⟩

/-- C9: tearing the session down by any path (`Close` or `idleShutdown`)
leaves the console-log sequence and the screenshot registry unchanged —
teardown modifies only the session fields and the idle timer. -/
theorem c9_close_frame (b : BrowseTools) :
    (Close b).consoleLogs = b.consoleLogs ∧
    (Close b).screenshots = b.screenshots ∧
    (Close b).maxConsoleLogs = b.maxConsoleLogs ∧
    (Close b).idleTimeout = b.idleTimeout ∧
    (Close b).maxImageDimension = b.maxImageDimension ∧
    (idleShutdown b).consoleLogs = b.consoleLogs ∧
    (idleShutdown b).screenshots = b.screenshots ∧
    (idleShutdown b).maxConsoleLogs = b.maxConsoleLogs ∧
    (idleShutdown b).idleTimeout = b.idleTimeout ∧
    (idleShutdown b).maxImageDimension = b.maxImageDimension := by
  unfold Close idleShutdown closeBrowserLocked
  split <;> simp

theorem isPort80_eq_of_parse (s : String) (u : GoURL) (h : urlParse s = some u) :
    isPort80 s = (u.port == "80" || (u.port == "" && u.scheme == "http")) := by
  unfold isPort80
  rw [h]

theorem getBrowserContext_frame (env : StartupEnv) (b : BrowseTools) :
    (GetBrowserContext env b).state.consoleLogs = b.consoleLogs ∧
    (GetBrowserContext env b).state.screenshots = b.screenshots ∧
    (GetBrowserContext env b).state.maxImageDimension = b.maxImageDimension := by
  unfold GetBrowserContext
  split
  · simp [resetIdleTimerLocked]
  · cases env <;> simp [resetIdleTimerLocked]

/-- C4: navigation rejects a URL whose effective port is 80 — an explicit
`"80"` port, or an http-scheme URL with no explicit port — with the
rejection happening before any session acquisition; a URL with a different
explicit port such as `http://host:8080` passes this check. -/
theorem c4_port80_rejection :
    (∀ (s : String) (u : GoURL), urlParse s = some u → u.port = "80" →
      isPort80 s = true) ∧
    (∀ (s : String) (u : GoURL), urlParse s = some u → u.port = "" →
      u.scheme = "http" → isPort80 s = true) ∧
    (∀ (env : StartupEnv) (navOk : Bool) (s t : String) (b : BrowseTools),
      isPort80 s = true →
      (navigateRun env navOk s t b).out =
        .error "port 80 is not the port you're looking for--port 80 is the main sketch server" ∧
      (navigateRun env navOk s t b).sessionAcquired = false ∧
      (navigateRun env navOk s t b).state = b) ∧
    isPort80 "http://host:8080" = false := by
  refine ⟨?_, ?_, ?_, by decide⟩
  · intro s u hparse hport
    rw [isPort80_eq_of_parse s u hparse, hport]
    simp
  · intro s u hparse hport hscheme
    rw [isPort80_eq_of_parse s u hparse, hport, hscheme]
    decide
  · intro env navOk s t b h
    refine ⟨?_, ?_, ?_⟩ <;> simp [navigateRun, h]

theorem c4_port80_rejection_witness :
    isPort80 "http://host:80/x" = true ∧
    isPort80 "http://host" = true ∧
    (navigateRun .ok true "http://host" "" (NewBrowseTools 0 0)).sessionAcquired = false :=
  ⟨c4_port80_rejection.1 "http://host:80/x" ⟨"http", "80"⟩ (by decide) rfl,
   c4_port80_rejection.2.1 "http://host" ⟨"http", ""⟩ (by decide) rfl rfl,
   (c4_port80_rejection.2.2.1 .ok true "http://host" "" (NewBrowseTools 0 0)
     (c4_port80_rejection.2.1 "http://host" ⟨"http", ""⟩ (by decide) rfl rfl)).2.1⟩

/-- C10: a URL string that fails to parse makes `isPort80` report `false`,
so `navigateRun` does not reject it at the port check and proceeds to
acquire a session; likewise an https URL with no explicit port is not
rejected by this check. -/
theorem c10_malformed_url_not_rejected :
    (∀ s : String, urlParse s = none → isPort80 s = false) ∧
    (∀ (s : String) (env : StartupEnv) (navOk : Bool) (t : String) (b : BrowseTools),
      urlParse s = none → (navigateRun env navOk s t b).sessionAcquired = true) ∧
    (∀ (s : String) (u : GoURL), urlParse s = some u → u.scheme = "https" →
      u.port = "" → isPort80 s = false) := by
  refine ⟨?_, ?_, ?_⟩
  · intro s h
    unfold isPort80
    rw [h]
  · intro s env navOk t b h
    have h80 : isPort80 s = false := by
      unfold isPort80
      rw [h]
    cases hr : (GetBrowserContext env b).result <;> cases navOk <;>
      simp [navigateRun, h80, hr]
  · intro s u hparse hscheme hport
    rw [isPort80_eq_of_parse s u hparse, hscheme, hport]
    decide

theorem c10_malformed_url_witness :
    isPort80 "http://host:bad" = false ∧
    (navigateRun .ok true "http://host:bad" "" (NewBrowseTools 0 0)).sessionAcquired = true ∧
    isPort80 "https://host" = false :=
  ⟨c10_malformed_url_not_rejected.1 "http://host:bad" (by decide),
   c10_malformed_url_not_rejected.2.1 "http://host:bad" .ok true "" (NewBrowseTools 0 0)
     (by decide),
   c10_malformed_url_not_rejected.2.2 "https://host" ⟨"https", ""⟩ (by decide) rfl rfl⟩

/-- C5: for every stored console-log sequence and every positive limit, the
list-console-logs selection returns at most `limit` events, and when the
stored count exceeds the limit it returns exactly the suffix starting at
`storedCount - limit` (the most recent events in arrival order); and on a
successful session acquisition the operation returns exactly that
selection of the stored logs. -/
theorem c5_snapshot_limit :
    (∀ (logs : List ConsoleEvent) (lim : Int), 0 < lim →
      (recentConsoleLogsSelect logs lim).length ≤ lim.toNat ∧
      (lim.toNat < logs.length →
        recentConsoleLogsSelect logs lim = logs.drop (logs.length - lim.toNat))) ∧
    (∀ (env : StartupEnv) (lim : Int) (b : BrowseTools),
      (GetBrowserContext env b).result = .ok () →
      (recentConsoleLogsRun env lim b).1 =
        .ok (recentConsoleLogsSelect b.consoleLogs lim)) := by
  constructor
  · intro logs lim hpos
    have hsel : recentConsoleLogsSelect logs lim =
        logs.drop (if logs.length > lim.toNat then logs.length - lim.toNat else 0) := by
      simp only [recentConsoleLogsSelect]
      rw [if_pos hpos]
    rw [hsel]
    constructor
    · split
      · next h =>
        simp only [List.length_drop]
        omega
      · next h =>
        simp only [List.drop_zero]
        omega
    · intro hlt
      rw [if_pos hlt]
  · intro env lim b h
    have hframe := (getBrowserContext_frame env b).1
    simp [recentConsoleLogsRun, h, hframe]

theorem c5_snapshot_limit_witness :
    (recentConsoleLogsSelect [1, 2, 3, 4, 5] 2).length ≤ (2 : Int).toNat ∧
    recentConsoleLogsSelect [1, 2, 3, 4, 5] 2 =
      [1, 2, 3, 4, 5].drop ([1, 2, 3, 4, 5].length - (2 : Int).toNat) :=
  ⟨(c5_snapshot_limit.1 [1, 2, 3, 4, 5] 2 (by decide)).1,
   (c5_snapshot_limit.1 [1, 2, 3, 4, 5] 2 (by decide)).2 (by decide)⟩

/-- C6: when the session is (or becomes) available, the clear-console-logs
operation reports exactly the count of stored events immediately before
clearing, and afterwards the stored sequence is empty, so a subsequent
snapshot returns the empty sequence. -/
theorem c6_clear_exact (env : StartupEnv) (b : BrowseTools)
    (h : (GetBrowserContext env b).result = .ok ()) :
    (clearConsoleLogsRun env b).1 =
      .ok ("Cleared " ++ toString b.consoleLogs.length ++ " console log entries.") ∧
    (clearConsoleLogsRun env b).2.consoleLogs = [] ∧
    (∀ lim : Int,
      recentConsoleLogsSelect (clearConsoleLogsRun env b).2.consoleLogs lim = []) := by
  have hframe := (getBrowserContext_frame env b).1
  refine ⟨?_, ?_, ?_⟩ <;>
    simp [clearConsoleLogsRun, h, hframe, recentConsoleLogsSelect]

theorem c6_clear_exact_witness :
    (clearConsoleLogsRun .ok (NewBrowseTools 0 0)).1 =
      .ok ("Cleared " ++ toString (NewBrowseTools 0 0).consoleLogs.length ++
        " console log entries.") ∧
    (clearConsoleLogsRun .ok (NewBrowseTools 0 0)).2.consoleLogs = [] :=
  ⟨(c6_clear_exact .ok (NewBrowseTools 0 0) (by decide)).1,
   (c6_clear_exact .ok (NewBrowseTools 0 0) (by decide)).2.1⟩

theorem hexPad_length (n k : Nat) : (hexPad n k).length = k := by
  simp [hexPad]

theorem uuidToString_length (u : Nat) : (uuidToString u).length = 36 := by
  simp [uuidToString, String.length, hexPad_length]

theorem uuidToString_ne_empty (u : Nat) : uuidToString u ≠ "" := by
  intro h
  have h36 := uuidToString_length u
  rw [h] at h36
  simp [String.length] at h36

/-- C7: `SaveScreenshot` returns the empty string exactly when the file
write fails, and in that case the screenshot registry is unchanged; on
success the generated identifier (never empty) is recorded with the current
time and returned; and `screenshotRun` translates an empty identifier into
the "failed to save screenshot" tool error without touching the registry. -/
theorem c7_save_screenshot (u now : Nat) (b : BrowseTools) :
    ((SaveScreenshot false u now b).1 = "" ∧ (SaveScreenshot false u now b).2 = b) ∧
    ((SaveScreenshot true u now b).1 = uuidToString u ∧
      uuidToString u ≠ "" ∧
      mapLookup (SaveScreenshot true u now b).2.screenshots (uuidToString u) = some now) ∧
    (∀ writeOk : Bool, (SaveScreenshot writeOk u now b).1 = "" ↔ writeOk = false) ∧
    (∀ (env : StartupEnv) (rOk : Bool), (GetBrowserContext env b).result = .ok () →
      (screenshotRun env true false rOk u now b).1 = .error "failed to save screenshot" ∧
      (screenshotRun env true false rOk u now b).2.screenshots = b.screenshots) := by
  refine ⟨⟨rfl, rfl⟩, ⟨rfl, uuidToString_ne_empty u, ?_⟩, ?_, ?_⟩
  · simp [SaveScreenshot, mapLookup]
  · intro writeOk
    cases writeOk <;> simp [SaveScreenshot, uuidToString_ne_empty u]
  · intro env rOk h
    have hframe := (getBrowserContext_frame env b).2.1
    constructor <;> simp [screenshotRun, SaveScreenshot, h, hframe]

theorem c7_save_screenshot_witness :
    mapLookup (SaveScreenshot true 5 42 (NewBrowseTools 0 0)).2.screenshots
      (uuidToString 5) = some 42 ∧
    (screenshotRun .ok true false true 5 42 (NewBrowseTools 0 0)).1 =
      .error "failed to save screenshot" :=
  ⟨(c7_save_screenshot 5 42 (NewBrowseTools 0 0)).2.1.2.2,
   ((c7_save_screenshot 5 42 (NewBrowseTools 0 0)).2.2.2 .ok true (by decide)).1⟩

/-- C8: a per-call timeout string that does not parse as a Go duration
(including the empty string) silently yields the default of 15 seconds
rather than failing the call, and a string that does parse yields the
parsed duration. -/
theorem c8_timeout_fallback :
    (∀ s : String, parseGoDuration s = none → parseTimeout s = 15000000000) ∧
    parseGoDuration "" = none ∧
    (∀ (s : String) (d : Int), parseGoDuration s = some d → parseTimeout s = d) := by
  refine ⟨?_, by decide, ?_⟩
  · intro s h
    unfold parseTimeout
    rw [h]
  · intro s d h
    unfold parseTimeout
    rw [h]

theorem c8_timeout_fallback_witness :
    parseTimeout "" = 15000000000 ∧
    parseTimeout "banana" = 15000000000 ∧
    parseTimeout "300ms" = 300000000 ∧
    parseTimeout "1.5h" = 5400000000000 :=
  ⟨c8_timeout_fallback.1 "" c8_timeout_fallback.2.1,
   c8_timeout_fallback.1 "banana" (by decide),
   c8_timeout_fallback.2.2 "300ms" 300000000 (by decide),
   c8_timeout_fallback.2.2 "1.5h" 5400000000000 (by decide)⟩

end Browse
